import Mathlib

/-!
Shallow embedding of `src/fw_upgrade.py`: two firmware-upgrade
orchestrators for a cable modem, one over a telnet console bridge
(`console_upgrade`) and one over SNMP (`snmp_upgrade`).

The transports (telnet, SNMP) are external collaborators; each
orchestrator is embedded as a pure function of an *environment* that
fixes the collaborators' behaviour for one run:

* `ConsoleEnv` — whether `connect` succeeds, the response of each
  `execute` call, whether `expect "reboot: Restarting system"` sees the
  marker before its timeout (an exception is collapsed into "not seen",
  exactly as the `except` clauses in the source do), and whether each
  `send`/`expect "login:"` attempt succeeds.
* `SnmpEnv` — the value returned by each `execute_get`, indexed by the
  point of the procedure at which it is issued, and the (discarded)
  acknowledgements of each `execute_set`.

Each orchestrator returns its Python return value (`Option Bool`:
`none` is Python `None`, `some b` is a boolean) together with a trace
of the transport calls it performed, so that claims about resource
release ("the session is closed exactly once") and about which steps
were reached can be stated.
-/

namespace FwUpgrade

/-! ## Console transport events and environment -/

/-- One observable call on the telnet console transport. -/
inductive CEv
  | execute (cmd : String) (resp : Option String)
  | setTimeout (secs : Nat)
  | send (text : String)
  | expectOk (pat : String)
  | expectFail (pat : String)
  | sleep (secs : Nat)
  | close
deriving DecidableEq

/-- Behaviour of the telnet collaborator for one `console_upgrade` run. -/
structure ConsoleEnv where
  /-- result of `dut.connect()` -/
  connect : Bool
  /-- response of the i-th `dut.execute(...)` call (`none` = no response) -/
  execResp : Nat → Option String
  /-- whether `expect "reboot: Restarting system"` sees the marker before
      the 120 s timeout; `false` covers both a timeout and a raised
      connection error, which the source collapses in one `except` arm -/
  expectReboot : Bool
  /-- whether the i-th `send "\r"; expect "login:"` attempt succeeds;
      `false` covers a raised exception from either call -/
  loginAttempt : Nat → Bool

/-- Marker string awaited after the trigger (`fw_upgrade.py` line 72). -/
def rebootMarker : String := "reboot: Restarting system"

/-- Login-prompt marker (`fw_upgrade.py` line 89). -/
def loginMarker : String := "login:"

/-- Console command setting the download-server URL (lines 46-47). -/
def cmdDlServer : String :=
  "dmcli eRT setv Device.DeviceInfo.X_RDKCENTRAL-COM_FirmwareDownloadURL string https://gateway-dl.lab.nl.dmdsdp.com/"

/-- Console command setting the firmware filename (line 55). -/
def cmdFwFilename (target_fw : String) : String :=
  "dmcli eRT setv Device.DeviceInfo.X_RDKCENTRAL-COM_FirmwareToDownload string \"" ++ target_fw ++ "\""

/-- Console command triggering the download (line 63). -/
def cmdTrigger : String :=
  "dmcli eRT setv Device.DeviceInfo.X_RDKCENTRAL-COM_FirmwareDownloadNow bool true"

/-- The login-prompt retry loop of `console_upgrade` (lines 85-97):
`while while_count < 4`, each attempt sends `"\r"` and waits for
`"login:"`; an exception sleeps 30 s and increments `while_count`,
success breaks out. Returns the final `while_count` and the trace. -/
def loginLoop (env : ConsoleEnv) (while_count : Nat) : Nat × List CEv :=
  if h : while_count < 4 then
    if env.loginAttempt while_count then
      (while_count, [CEv.send "\r", CEv.expectOk loginMarker])
    else
      let r := loginLoop env (while_count + 1)
      (r.1, CEv.send "\r" :: CEv.expectFail loginMarker :: CEv.sleep 30 :: r.2)
  else
    (while_count, [])
termination_by 4 - while_count

/-- Embedding of `console_upgrade` (`fw_upgrade.py` lines 28-107).
Returns the Python return value and the trace of transport calls. -/
def console_upgrade (env : ConsoleEnv) (target_fw : String) : Option Bool × List CEv :=
  if env.connect = false then
    (none, [])
  else
    let ev1 : List CEv :=
      [CEv.execute cmdDlServer (env.execResp 0), CEv.sleep 2,
       CEv.execute (cmdFwFilename target_fw) (env.execResp 1), CEv.sleep 2,
       CEv.execute cmdTrigger (env.execResp 2),
       CEv.setTimeout 120]
    if env.expectReboot = false then
      (none, ev1 ++ [CEv.expectFail rebootMarker])
    else
      let ev2 := ev1 ++ [CEv.expectOk rebootMarker, CEv.sleep 120, CEv.setTimeout 5]
      let r := loginLoop env 0
      let ev3 := ev2 ++ r.2 ++ [CEv.setTimeout 30, CEv.close]
      if 4 ≤ r.1 then (none, ev3) else (some true, ev3)

/-- Number of `close` calls in a console trace. -/
def countClose : List CEv → Nat
  | [] => 0
  | CEv.close :: rest => countClose rest + 1
  | _ :: rest => countClose rest

/-- Number of `send` calls in a console trace (every iteration of the
login retry loop starts with one). -/
def countSend : List CEv → Nat
  | [] => 0
  | CEv.send _ :: rest => countSend rest + 1
  | _ :: rest => countSend rest

/-- Number of `execute` calls in a console trace. -/
def countExec : List CEv → Nat
  | [] => 0
  | CEv.execute _ _ :: rest => countExec rest + 1
  | _ :: rest => countExec rest

/-! ## SNMP transport values, events and environment -/

/-- A typed SNMP value, as carried by `pysnmp` objects: `int` stands for
`Integer`, `str` for `OctetString`, `ip` for `IpAddress`. -/
inductive SnmpVal
  | int (n : Int)
  | str (s : String)
  | ip (s : String)
deriving DecidableEq

/-- Python `str(...)` applied to an `execute_get` result: `str(None)` is
the four-character string `"None"`; a typed value renders its payload. -/
def snmpStr : Option SnmpVal → String
  | none => "None"
  | some (SnmpVal.int n) => toString n
  | some (SnmpVal.str s) => s
  | some (SnmpVal.ip s) => s

/-- One observable call on the SNMP transport. -/
inductive SnmpEv
  | set (oid : String) (val : SnmpVal) (ack : Option SnmpVal)
  | get (oid : String) (resp : Option SnmpVal)
  | sleep (secs : Nat)
deriving DecidableEq

/-- Behaviour of the SNMP collaborator for one `snmp_upgrade` run. -/
structure SnmpEnv where
  /-- acknowledgement of the i-th `execute_set` call (i = 0..3: HTTP
      mode, firmware filename, download server, download trigger); the
      source discards all four -/
  setAck : Nat → Option SnmpVal
  /-- result of the read-back `execute_get` after the i-th `execute_set`;
      the source only logs all four -/
  getCheck : Nat → Option SnmpVal
  /-- result of the first post-trigger `execute_get(oid_dl_status)` -/
  firstStatus : Option SnmpVal
  /-- result of the i-th `execute_get(oid_dl_status)` inside the
      monitoring loop -/
  pollStatus : Nat → Option SnmpVal
  /-- result of the i-th `execute_get(oid_sys_descr)` inside the
      final confirmation loop -/
  sysDescr : Nat → Option SnmpVal

/-- OID of sysDescr.0 (`fw_upgrade.py` line 120). -/
def oid_sys_descr : String := ".1.3.6.1.2.1.1.1.0"

/-- OID of the HTTP-mode flag (line 121). -/
def oid_http_mode : String := ".1.3.6.1.2.1.69.1.3.8.0"

/-- OID of the firmware filename (line 122). -/
def oid_fw_filename : String := ".1.3.6.1.2.1.69.1.3.2.0"

/-- OID of the download-server address (line 123). -/
def oid_dl_server : String := ".1.3.6.1.2.1.69.1.3.1.0"

/-- OID of the download trigger (line 124). -/
def oid_start_dl : String := ".1.3.6.1.2.1.69.1.3.3.0"

/-- OID of the download status (line 125). -/
def oid_dl_status : String := ".1.3.6.1.2.1.69.1.3.4.0"

/-- Firmware-server IP address (line 128). -/
def ip_server : String := "172.30.144.122"

/-- Status-monitoring loop of `snmp_upgrade` (lines 170-179):
`while while_counter < 20 and status == 1`, each iteration reads the
download status; a valid `Integer` updates `status`, anything else
keeps it; then sleeps 30 s. Returns the final `status` and the trace. -/
def statusLoop (env : SnmpEnv) (while_counter : Nat) (status : Int) : Int × List SnmpEv :=
  if h : while_counter < 20 ∧ status = 1 then
    let new_status := env.pollStatus while_counter
    let status2 := match new_status with
      | some (SnmpVal.int n) => n
      | _ => status
    let r := statusLoop env (while_counter + 1) status2
    (r.1, SnmpEv.get oid_dl_status new_status :: SnmpEv.sleep 30 :: r.2)
  else
    (status, [])
termination_by 20 - while_counter
decreasing_by omega

/-- Final confirmation loop of `snmp_upgrade` (lines 186-197):
`while while_counter < 20 and len(sys_descr) == 0`, each iteration reads
sysDescr.0; a rendering that is non-empty and differs from `"None"`
returns `True` at once, otherwise sleep 30 s and continue; exhaustion
falls through to `return None`. (`sys_descr` is only assigned on the
returning branch, so the `len(sys_descr) == 0` conjunct is always true
when tested.) -/
def sysDescrLoop (env : SnmpEnv) (while_counter : Nat) : Option Bool × List SnmpEv :=
  if h : while_counter < 20 then
    let sd_value := snmpStr (env.sysDescr while_counter)
    if 0 < sd_value.length ∧ sd_value ≠ "None" then
      (some true, [SnmpEv.get oid_sys_descr (env.sysDescr while_counter)])
    else
      let r := sysDescrLoop env (while_counter + 1)
      (r.1, SnmpEv.get oid_sys_descr (env.sysDescr while_counter) :: SnmpEv.sleep 30 :: r.2)
  else
    (none, [])
termination_by 20 - while_counter

/-- Embedding of `snmp_upgrade` (`fw_upgrade.py` lines 110-197).
Returns the Python return value and the trace of transport calls. -/
def snmp_upgrade (env : SnmpEnv) (target_fw : String) : Option Bool × List SnmpEv :=
  let fw_path := "firmware/" ++ target_fw
  let ev0 : List SnmpEv :=
    [SnmpEv.set oid_http_mode (SnmpVal.int 2) (env.setAck 0),
     SnmpEv.get oid_http_mode (env.getCheck 0),
     SnmpEv.set oid_fw_filename (SnmpVal.str fw_path) (env.setAck 1),
     SnmpEv.get oid_fw_filename (env.getCheck 1),
     SnmpEv.set oid_dl_server (SnmpVal.ip ip_server) (env.setAck 2),
     SnmpEv.get oid_dl_server (env.getCheck 2),
     SnmpEv.set oid_start_dl (SnmpVal.int 1) (env.setAck 3),
     SnmpEv.get oid_start_dl (env.getCheck 3),
     SnmpEv.sleep 5,
     SnmpEv.get oid_dl_status env.firstStatus]
  match env.firstStatus with
  | some (SnmpVal.int n) =>
    if n ≠ 1 then
      (none, ev0)
    else
      let ev1 := ev0 ++ [SnmpEv.sleep 60]
      let r := statusLoop env 0 n
      if r.1 ≠ 3 then
        (none, ev1 ++ r.2)
      else
        let s := sysDescrLoop env 0
        (s.1, ev1 ++ r.2 ++ s.2)
  | _ => (none, ev0)

/-- Number of `execute_get` calls on a given OID in an SNMP trace. -/
def countGet (oid : String) : List SnmpEv → Nat
  | [] => 0
  | SnmpEv.get o _ :: rest =>
      (if o = oid then 1 else 0) + countGet oid rest
  | _ :: rest => countGet oid rest

/-! ## Concrete collaborator behaviours used as test runs -/

/-- Console run: connection opens, no command answers, the reboot marker
never appears. -/
def envC1 : ConsoleEnv :=
  { connect := true, execResp := fun _ => none, expectReboot := false,
    loginAttempt := fun _ => false }

/-- Console run: connection opens, commands answer, the reboot marker
never appears even though the device would answer login attempts. -/
def wEnvC2 : ConsoleEnv :=
  { connect := true, execResp := fun _ => some "ok", expectReboot := false,
    loginAttempt := fun _ => true }

/-- Console run: everything succeeds, with the login prompt appearing on
the second attempt (index 1). -/
def wEnvC6a : ConsoleEnv :=
  { connect := true, execResp := fun _ => some "ok", expectReboot := true,
    loginAttempt := fun i => decide (i = 1) }

/-- Console run: reboot marker seen but the login prompt never appears. -/
def wEnvC6b : ConsoleEnv :=
  { connect := true, execResp := fun _ => some "ok", expectReboot := true,
    loginAttempt := fun _ => false }

/-- Console run: the initial connection fails. -/
def wEnvC7 : ConsoleEnv :=
  { connect := false, execResp := fun _ => some "ok", expectReboot := true,
    loginAttempt := fun _ => true }

/-- Console run: all three commands yield no response, everything else
succeeds on the first try. -/
def wEnvC9 : ConsoleEnv :=
  { connect := true, execResp := fun _ => none, expectReboot := true,
    loginAttempt := fun _ => true }

/-- SNMP run: the first post-trigger status read yields `Integer(5)`. -/
def wEnvC3 : SnmpEnv :=
  { setAck := fun _ => some (SnmpVal.int 0), getCheck := fun _ => some (SnmpVal.int 5),
    firstStatus := some (SnmpVal.int 5),
    pollStatus := fun _ => some (SnmpVal.int 5),
    sysDescr := fun _ => some (SnmpVal.str "LG-RDK") }

/-- SNMP run: trigger takes, the first monitor poll gets no response,
the next poll reports status 5 (a failure code). -/
def wEnvC4 : SnmpEnv :=
  { setAck := fun _ => some (SnmpVal.int 0), getCheck := fun _ => some (SnmpVal.int 1),
    firstStatus := some (SnmpVal.int 1),
    pollStatus := fun i => if i = 0 then none else some (SnmpVal.int 5),
    sysDescr := fun _ => some (SnmpVal.str "LG-RDK") }

/-- SNMP run: the trigger write and every other write get no
acknowledgement and no read-back, yet the device carries the upgrade
through (status 1, then 3, then sysDescr.0 answers). -/
def cexEnvC5 : SnmpEnv :=
  { setAck := fun _ => none, getCheck := fun _ => none,
    firstStatus := some (SnmpVal.int 1),
    pollStatus := fun _ => some (SnmpVal.int 3),
    sysDescr := fun _ => some (SnmpVal.str "LG-RDK 5.7.36") }

/-- SNMP run: a fully successful upgrade with all acknowledgements. -/
def wEnvC5a : SnmpEnv :=
  { setAck := fun _ => some (SnmpVal.int 0), getCheck := fun _ => some (SnmpVal.int 1),
    firstStatus := some (SnmpVal.int 1),
    pollStatus := fun _ => some (SnmpVal.int 3),
    sysDescr := fun _ => some (SnmpVal.str "LG-RDK 5.7.36") }

/-- SNMP run: the first post-trigger status read yields `Integer(2)`. -/
def wEnvC5b : SnmpEnv :=
  { setAck := fun _ => some (SnmpVal.int 0), getCheck := fun _ => some (SnmpVal.int 2),
    firstStatus := some (SnmpVal.int 2),
    pollStatus := fun _ => some (SnmpVal.int 2),
    sysDescr := fun _ => some (SnmpVal.str "LG-RDK") }

/-- SNMP run: the download completes (status 3) and every sysDescr.0
poll returns the literal string `"None"` — a non-empty response. -/
def cexEnvC8 : SnmpEnv :=
  { setAck := fun _ => some (SnmpVal.int 0), getCheck := fun _ => some (SnmpVal.int 1),
    firstStatus := some (SnmpVal.int 1),
    pollStatus := fun _ => some (SnmpVal.int 3),
    sysDescr := fun _ => some (SnmpVal.str "None") }

/-- SNMP run: the download completes and sysDescr.0 answers at once. -/
def wEnvC8 : SnmpEnv :=
  { setAck := fun _ => some (SnmpVal.int 0), getCheck := fun _ => some (SnmpVal.int 1),
    firstStatus := some (SnmpVal.int 1),
    pollStatus := fun _ => some (SnmpVal.int 3),
    sysDescr := fun _ => some (SnmpVal.str "LG-RDK 5.7.36-2210.4") }

/-! ## Helper lemmas: console orchestrator -/

lemma countClose_append (a b : List CEv) :
    countClose (a ++ b) = countClose a + countClose b := by
  induction a with
  | nil => simp [countClose]
  | cons e rest ih => cases e <;> simp [countClose, ih] <;> omega

lemma countSend_append (a b : List CEv) :
    countSend (a ++ b) = countSend a + countSend b := by
  induction a with
  | nil => simp [countSend]
  | cons e rest ih => cases e <;> simp [countSend, ih] <;> omega

lemma countExec_append (a b : List CEv) :
    countExec (a ++ b) = countExec a + countExec b := by
  induction a with
  | nil => simp [countExec]
  | cons e rest ih => cases e <;> simp [countExec, ih] <;> omega

/-- The login retry loop never drives `while_count` beyond 4. -/
lemma loginLoop_le (env : ConsoleEnv) (c : Nat) :
    c ≤ 4 → (loginLoop env c).1 ≤ 4 := by
  induction c using loginLoop.induct with
  | env => exact env
  | case1 x hx ha => intro h; rw [loginLoop]; simp [hx, ha]; omega
  | case2 x hx ha ih => intro h; rw [loginLoop]; simp [hx, ha]; exact ih (by omega)
  | case3 x hx => intro h; rw [loginLoop]; simp [hx]; omega

/-- The login retry loop ends with `while_count < 4` exactly when some
attempt with index below 4 (and at least the starting index) succeeds. -/
lemma loginLoop_lt_iff (env : ConsoleEnv) (c : Nat) :
    (loginLoop env c).1 < 4 ↔
      ∃ i, c ≤ i ∧ i < 4 ∧ env.loginAttempt i = true := by
  induction c using loginLoop.induct with
  | env => exact env
  | case1 x hx ha =>
      rw [loginLoop]; simp [hx, ha]
      exact ⟨x, le_refl x, hx, ha⟩
  | case2 x hx ha ih =>
      rw [loginLoop]; simp [hx, ha]
      rw [ih]
      constructor
      · rintro ⟨i, hi1, hi2, hi3⟩
        exact ⟨i, by omega, hi2, hi3⟩
      · rintro ⟨i, hi1, hi2, hi3⟩
        refine ⟨i, ?_, hi2, hi3⟩
        rcases Nat.eq_or_lt_of_le hi1 with rfl | hlt
        · rw [hi3] at ha; simp at ha
        · omega
  | case3 x hx =>
      rw [loginLoop]; simp [hx]
      rintro i hi1 hi2
      omega

/-- A failed attempt of the login retry loop sends, fails the expect,
sleeps 30 s, and continues with the counter incremented. -/
lemma loginLoop_fail_step (env : ConsoleEnv) (c : Nat)
    (hc : c < 4) (ha : env.loginAttempt c = false) :
    loginLoop env c =
      ((loginLoop env (c + 1)).1,
       CEv.send "\r" :: CEv.expectFail loginMarker :: CEv.sleep 30 ::
         (loginLoop env (c + 1)).2) := by
  rw [loginLoop]; simp [hc, ha]

/-- The login retry loop performs at most `4 - c` send attempts. -/
lemma loginLoop_countSend (env : ConsoleEnv) (c : Nat) :
    countSend (loginLoop env c).2 ≤ 4 - c := by
  induction c using loginLoop.induct with
  | env => exact env
  | case1 x hx ha => rw [loginLoop]; simp [hx, ha, countSend]; omega
  | case2 x hx ha ih => rw [loginLoop]; simp [hx, ha, countSend]; omega
  | case3 x hx => rw [loginLoop]; simp [hx, countSend]

/-- `console_upgrade` returns `True` exactly when the connection opened,
the reboot marker was seen, and the login retry loop broke early. -/
lemma console_true_iff (env : ConsoleEnv) (fw : String) :
    (console_upgrade env fw).1 = some true ↔
      env.connect = true ∧ env.expectReboot = true ∧ (loginLoop env 0).1 < 4 := by
  cases hc : env.connect with
  | false => simp [console_upgrade, hc]
  | true =>
    cases hr : env.expectReboot with
    | false => simp [console_upgrade, hc, hr]
    | true =>
      by_cases h4 : 4 ≤ (loginLoop env 0).1 <;>
        simp [console_upgrade, hc, hr, h4] <;> omega

/-- `console_upgrade` never returns `False`. -/
lemma console_result_cases (env : ConsoleEnv) (fw : String) :
    (console_upgrade env fw).1 = none ∨ (console_upgrade env fw).1 = some true := by
  cases hc : env.connect with
  | false => simp [console_upgrade, hc]
  | true =>
    cases hr : env.expectReboot with
    | false => simp [console_upgrade, hc, hr]
    | true =>
      by_cases h4 : 4 ≤ (loginLoop env 0).1 <;>
        simp [console_upgrade, hc, hr, h4]

/-! ## Helper lemmas: SNMP orchestrator -/

lemma countGet_append (oid : String) (a b : List SnmpEv) :
    countGet oid (a ++ b) = countGet oid a + countGet oid b := by
  induction a with
  | nil => simp [countGet]
  | cons e rest ih => cases e <;> simp [countGet, ih] <;> omega

/-- The monitoring loop exits at once when the tracked status is not 1. -/
lemma statusLoop_exit (env : SnmpEnv) (c : Nat) (s : Int) (hs : s ≠ 1) :
    statusLoop env c s = (s, []) := by
  rw [statusLoop]; simp [hs]

/-- The monitoring loop reads the download status at most `20 - c` times. -/
lemma statusLoop_countGet (env : SnmpEnv) (c : Nat) (s : Int) :
    countGet oid_dl_status (statusLoop env c s).2 ≤ 20 - c := by
  induction c, s using statusLoop.induct with
  | env => exact env
  | case1 c s h nsv s2v ih =>
      obtain ⟨hc, hs⟩ := h
      subst hs
      unfold s2v nsv at ih
      rw [statusLoop]
      simp [hc, countGet]
      omega
  | case2 c s h => rw [statusLoop]; simp [h, countGet]

/-- A poll that yields nothing or a non-integer keeps the tracked status:
the loop continues from the same status with the counter advanced. -/
lemma statusLoop_invalid (env : SnmpEnv) (c : Nat) (hc : c < 20)
    (hp : ∀ n : Int, env.pollStatus c ≠ some (SnmpVal.int n)) :
    (statusLoop env c 1).1 = (statusLoop env (c + 1) 1).1 := by
  conv_lhs => rw [statusLoop]
  rcases h : env.pollStatus c with _ | v
  · simp [hc, h]
  · cases v with
    | int n => exact absurd h (hp n)
    | str s => simp [hc, h]
    | ip s => simp [hc, h]

/-- The monitoring loop depends only on the `pollStatus` oracle. -/
lemma statusLoop_congr (env env2 : SnmpEnv) (hp : env.pollStatus = env2.pollStatus)
    (c : Nat) (s : Int) : statusLoop env c s = statusLoop env2 c s := by
  induction c, s using statusLoop.induct with
  | env => exact env
  | case1 c s h nsv s2v ih =>
      obtain ⟨hc, hs⟩ := h
      subst hs
      unfold s2v nsv at ih
      conv_lhs => rw [statusLoop]
      conv_rhs => rw [statusLoop]
      simp only [hc, true_and, and_self, reduceDIte, hp] at ih ⊢
      rw [ih]
  | case2 c s h =>
      conv_lhs => rw [statusLoop]
      conv_rhs => rw [statusLoop]
      simp [h]

/-- The test applied to a sysDescr.0 reading (`fw_upgrade.py` line 190):
its string rendering is non-empty and is not the rendering `"None"` of
a missing response. -/
def goodSDval (v : Option SnmpVal) : Prop :=
  0 < (snmpStr v).length ∧ snmpStr v ≠ "None"

instance (v : Option SnmpVal) : Decidable (goodSDval v) := by
  unfold goodSDval; infer_instance

/-- The confirmation loop returns `True` or falls through to `None`. -/
lemma sysDescrLoop_cases (env : SnmpEnv) (c : Nat) :
    (sysDescrLoop env c).1 = some true ∨ (sysDescrLoop env c).1 = none := by
  induction c using sysDescrLoop.induct with
  | env => exact env
  | case1 c hc sd hg => rw [sysDescrLoop]; unfold sd at hg; simp [hc, hg]
  | case2 c hc sd hg ih => rw [sysDescrLoop]; unfold sd at hg; simp [hc, hg]; exact ih
  | case3 c hc => rw [sysDescrLoop]; simp [hc]

/-- The confirmation loop returns `True` exactly when an in-budget poll
(at or after the starting counter) sees a good sysDescr.0 value. -/
lemma sysDescrLoop_true_iff (env : SnmpEnv) (c : Nat) :
    (sysDescrLoop env c).1 = some true ↔
      ∃ i, c ≤ i ∧ i < 20 ∧ goodSDval (env.sysDescr i) := by
  induction c using sysDescrLoop.induct with
  | env => exact env
  | case1 c hc sd hg =>
      rw [sysDescrLoop]; unfold sd at hg; simp [hc, hg]
      exact ⟨c, le_refl c, hc, hg⟩
  | case2 c hc sd hg ih =>
      rw [sysDescrLoop]; unfold sd at hg; simp [hc, hg]
      rw [ih]
      constructor
      · rintro ⟨i, hi1, hi2, hi3⟩
        exact ⟨i, by omega, hi2, hi3⟩
      · rintro ⟨i, hi1, hi2, hi3⟩
        refine ⟨i, ?_, hi2, hi3⟩
        rcases Nat.eq_or_lt_of_le hi1 with rfl | hlt
        · exact absurd hi3 hg
        · omega
  | case3 c hc =>
      rw [sysDescrLoop]; simp [hc]
      rintro i hi1 hi2
      omega

/-- The confirmation loop reads sysDescr.0 at most `20 - c` times. -/
lemma sysDescrLoop_countGet (env : SnmpEnv) (c : Nat) :
    countGet oid_sys_descr (sysDescrLoop env c).2 ≤ 20 - c := by
  induction c using sysDescrLoop.induct with
  | env => exact env
  | case1 c hc sd hg => rw [sysDescrLoop]; unfold sd at hg; simp [hc, hg, countGet]; omega
  | case2 c hc sd hg ih => rw [sysDescrLoop]; unfold sd at hg; simp [hc, hg, countGet]; omega
  | case3 c hc => rw [sysDescrLoop]; simp [hc, countGet]

/-- A good sysDescr.0 poll ends the confirmation loop at once with
`True`, after exactly one further read. -/
lemma sysDescrLoop_good_exit (env : SnmpEnv) (c : Nat)
    (hc : c < 20) (hg : goodSDval (env.sysDescr c)) :
    sysDescrLoop env c =
      (some true, [SnmpEv.get oid_sys_descr (env.sysDescr c)]) := by
  rw [sysDescrLoop]; simp [hc, hg.1, hg.2]

/-- The confirmation loop depends only on the `sysDescr` oracle. -/
lemma sysDescrLoop_congr (env env2 : SnmpEnv)
    (hs : env.sysDescr = env2.sysDescr) (c : Nat) :
    sysDescrLoop env c = sysDescrLoop env2 c := by
  induction c using sysDescrLoop.induct with
  | env => exact env
  | case1 c hc sd hg =>
      unfold sd at hg
      conv_lhs => rw [sysDescrLoop]
      conv_rhs => rw [sysDescrLoop]
      rw [hs] at hg
      simp [hc, hg, hs]
  | case2 c hc sd hg ih =>
      unfold sd at hg
      conv_lhs => rw [sysDescrLoop]
      conv_rhs => rw [sysDescrLoop]
      rw [hs] at hg
      simp [hc, hg, hs, ih]
  | case3 c hc =>
      conv_lhs => rw [sysDescrLoop]
      conv_rhs => rw [sysDescrLoop]
      simp [hc]

/-- Numeric reading of the first post-trigger download-status value:
`some n` when the transport returned an SNMP `Integer`, else `none`
(covering an absent response and the non-integer types). -/
def firstStatusInt : Option SnmpVal → Option Int
  | some (SnmpVal.int n) => some n
  | _ => none

/-- A first post-trigger status read that is not `Integer(1)` — absent,
non-integer, or an integer other than 1 — makes `snmp_upgrade` return
`None` with the download status read exactly once (no monitoring loop). -/
lemma snmp_firstStatus_bad (env : SnmpEnv) (fw : String)
    (h : firstStatusInt env.firstStatus ≠ some 1) :
    (snmp_upgrade env fw).1 = none ∧
      countGet oid_dl_status (snmp_upgrade env fw).2 = 1 := by
  rcases hf : env.firstStatus with _ | v
  · constructor
    · simp [snmp_upgrade, hf]
    · simp +decide [snmp_upgrade, hf, countGet, oid_http_mode, oid_fw_filename,
        oid_dl_server, oid_start_dl, oid_dl_status]
  · cases v with
    | int n =>
      have hn : n ≠ 1 := by
        intro hn1; subst hn1
        exact h (by simp [firstStatusInt, hf])
      constructor
      · simp [snmp_upgrade, hf, hn]
      · simp +decide [snmp_upgrade, hf, hn, countGet, oid_http_mode, oid_fw_filename,
          oid_dl_server, oid_start_dl, oid_dl_status]
    | str s =>
      constructor
      · simp [snmp_upgrade, hf]
      · simp +decide [snmp_upgrade, hf, countGet, oid_http_mode, oid_fw_filename,
          oid_dl_server, oid_start_dl, oid_dl_status]
    | ip s =>
      constructor
      · simp [snmp_upgrade, hf]
      · simp +decide [snmp_upgrade, hf, countGet, oid_http_mode, oid_fw_filename,
          oid_dl_server, oid_start_dl, oid_dl_status]

/-- When the monitoring loop runs and exits with a status other than 3,
`snmp_upgrade` returns `None`. -/
lemma snmp_loop_fail (env : SnmpEnv) (fw : String)
    (h1 : env.firstStatus = some (SnmpVal.int 1))
    (h3 : (statusLoop env 0 1).1 ≠ 3) :
    (snmp_upgrade env fw).1 = none := by
  simp [snmp_upgrade, h1, h3]

/-- When the monitoring loop runs and exits with status 3, the result of
`snmp_upgrade` is the result of the confirmation loop. -/
lemma snmp_loop_ok (env : SnmpEnv) (fw : String)
    (h1 : env.firstStatus = some (SnmpVal.int 1))
    (h3 : (statusLoop env 0 1).1 = 3) :
    (snmp_upgrade env fw).1 = (sysDescrLoop env 0).1 := by
  simp [snmp_upgrade, h1, h3]

/-- `snmp_upgrade` never returns `False`. -/
lemma snmp_result_cases (env : SnmpEnv) (fw : String) :
    (snmp_upgrade env fw).1 = none ∨ (snmp_upgrade env fw).1 = some true := by
  rcases hf : env.firstStatus with _ | v
  · left; simp [snmp_upgrade, hf]
  · cases v with
    | int n =>
      by_cases hn : n = 1
      · subst hn
        by_cases h3 : (statusLoop env 0 1).1 = 3
        · rw [snmp_loop_ok env fw hf h3]
          rcases sysDescrLoop_cases env 0 with h | h
          · right; exact h
          · left; exact h
        · left; exact snmp_loop_fail env fw hf h3
      · left; simp [snmp_upgrade, hf, hn]
    | str s => left; simp [snmp_upgrade, hf]
    | ip s => left; simp [snmp_upgrade, hf]

/-- The outcome of `snmp_upgrade` depends only on the oracles the source
branches on: the first status read, the status polls, and the
sysDescr.0 polls — not on the set acknowledgements or read-backs. -/
lemma snmp_congr (env env2 : SnmpEnv) (fw : String)
    (h1 : env.firstStatus = env2.firstStatus)
    (hp : env.pollStatus = env2.pollStatus)
    (hs : env.sysDescr = env2.sysDescr) :
    (snmp_upgrade env fw).1 = (snmp_upgrade env2 fw).1 := by
  have hsl : statusLoop env 0 1 = statusLoop env2 0 1 :=
    statusLoop_congr env env2 hp 0 1
  have hdl : sysDescrLoop env 0 = sysDescrLoop env2 0 :=
    sysDescrLoop_congr env env2 hs 0
  rcases hf : env2.firstStatus with _ | v
  · simp [snmp_upgrade, h1.trans hf, hf]
  · cases v with
    | int n =>
      by_cases hn : n = 1
      · subst hn
        have e1 : env.firstStatus = some (SnmpVal.int 1) := h1.trans hf
        by_cases h3 : (statusLoop env2 0 1).1 = 3
        · have h3a : (statusLoop env 0 1).1 = 3 := by rw [hsl]; exact h3
          rw [snmp_loop_ok env fw e1 h3a, snmp_loop_ok env2 fw hf h3, hdl]
        · have h3a : (statusLoop env 0 1).1 ≠ 3 := by rw [hsl]; exact h3
          rw [snmp_loop_fail env fw e1 h3a, snmp_loop_fail env2 fw hf h3]
      · simp [snmp_upgrade, h1.trans hf, hf, hn]
    | str s => simp [snmp_upgrade, h1.trans hf, hf]
    | ip s => simp [snmp_upgrade, h1.trans hf, hf]

/-! ## Claim theorems -/

/-- Claim C1: the claim asks that every run of `console_upgrade` with a
successful connect close the session exactly once on every exit path,
including the one where the reboot marker times out. The code does not:
on the reboot-timeout path it returns `None` at line 77 without ever
reaching `dut.close()` at line 100. In the run `envC1` (connect
succeeds, marker never appears) the orchestrator returns `None` and the
trace contains zero `close` calls. -/
theorem consoleUpgrade_reboot_timeout_leaks_session :
    envC1.connect = true ∧
    (console_upgrade envC1 "fw.pkgtb").1 = none ∧
    countClose (console_upgrade envC1 "fw.pkgtb").2 = 0 := by
  refine ⟨rfl, ?_, ?_⟩ <;> simp [console_upgrade, envC1, countClose]

/-- Claim C2: whenever the connection opens but the reboot marker is not
observed within the wait budget (timeout or raised error, both collapsed
into `expectReboot = false`), `console_upgrade` returns `None` and the
login-prompt retry loop is never executed — the trace holds no `send`
call at all. -/
theorem consoleUpgrade_no_reboot_indeterminate (env : ConsoleEnv) (fw : String)
    (hc : env.connect = true) (hr : env.expectReboot = false) :
    (console_upgrade env fw).1 = none ∧
    countSend (console_upgrade env fw).2 = 0 := by
  simp [console_upgrade, hc, hr, countSend]

/-- Witness for C2: the run `wEnvC2` satisfies both hypotheses and the
conclusion follows by the theorem. -/
theorem consoleUpgrade_no_reboot_indeterminate_witness :
    (console_upgrade wEnvC2 "fw.pkgtb").1 = none ∧
    countSend (console_upgrade wEnvC2 "fw.pkgtb").2 = 0 :=
  consoleUpgrade_no_reboot_indeterminate wEnvC2 "fw.pkgtb" rfl rfl

/-- Claim C3: if the first post-trigger read of the download status is
not a well-formed integer (absent or of another SNMP type) or is an
integer other than 1, `snmp_upgrade` returns `None` and reads the
download status exactly once — the 20-attempt monitoring loop is never
entered. -/
theorem snmpUpgrade_bad_first_status_indeterminate (env : SnmpEnv) (fw : String)
    (h : firstStatusInt env.firstStatus ≠ some 1) :
    (snmp_upgrade env fw).1 = none ∧
    countGet oid_dl_status (snmp_upgrade env fw).2 = 1 :=
  snmp_firstStatus_bad env fw h

/-- Witness for C3: in `wEnvC3` the first status read yields
`Integer(5)`; the hypothesis holds by computation and the theorem
applies. -/
theorem snmpUpgrade_bad_first_status_indeterminate_witness :
    (snmp_upgrade wEnvC3 "fw.p7b").1 = none ∧
    countGet oid_dl_status (snmp_upgrade wEnvC3 "fw.p7b").2 = 1 :=
  snmpUpgrade_bad_first_status_indeterminate wEnvC3 "fw.p7b" (by decide)

/-- Claim C4: the status-monitoring loop of `snmp_upgrade` (i) reads the
download status at most 20 times, (ii) exits immediately once the
tracked status differs from 1, (iii) keeps the previous tracked status
when a poll yields nothing or a non-integer (non-fatal), and (iv) when
the loop was entered and its final tracked status is not 3 the
orchestrator returns `None`. -/
theorem snmpUpgrade_monitor_loop_spec :
    (∀ (env : SnmpEnv) (s : Int),
       countGet oid_dl_status (statusLoop env 0 s).2 ≤ 20) ∧
    (∀ (env : SnmpEnv) (c : Nat) (s : Int),
       s ≠ 1 → statusLoop env c s = (s, [])) ∧
    (∀ (env : SnmpEnv) (c : Nat), c < 20 →
       (∀ n : Int, env.pollStatus c ≠ some (SnmpVal.int n)) →
       (statusLoop env c 1).1 = (statusLoop env (c + 1) 1).1) ∧
    (∀ (env : SnmpEnv) (fw : String),
       env.firstStatus = some (SnmpVal.int 1) →
       (statusLoop env 0 1).1 ≠ 3 →
       (snmp_upgrade env fw).1 = none) := by
  refine ⟨?_, ?_, ?_, ?_⟩
  · intro env s; simpa using statusLoop_countGet env 0 s
  · exact statusLoop_exit
  · exact statusLoop_invalid
  · exact snmp_loop_fail

/-- Witness for C4: the run `wEnvC4` (first poll silent, second poll
status 5) exercises every conjunct of the theorem with its hypotheses
discharged by computation. -/
theorem snmpUpgrade_monitor_loop_spec_witness :
    countGet oid_dl_status (statusLoop wEnvC4 0 1).2 ≤ 20 ∧
    statusLoop wEnvC4 0 5 = (5, []) ∧
    (statusLoop wEnvC4 0 1).1 = (statusLoop wEnvC4 1 1).1 ∧
    (snmp_upgrade wEnvC4 "fw.p7b").1 = none :=
  ⟨snmpUpgrade_monitor_loop_spec.1 wEnvC4 1,
   snmpUpgrade_monitor_loop_spec.2.1 wEnvC4 0 5 (by decide),
   snmpUpgrade_monitor_loop_spec.2.2.1 wEnvC4 0 (by decide) (by simp [wEnvC4]),
   snmpUpgrade_monitor_loop_spec.2.2.2 wEnvC4 "fw.p7b" rfl
     (by simp +decide [statusLoop, wEnvC4])⟩

/-- Claim C5 (counterexample): the claim says a failed trigger write is
fatal and the orchestrator does not proceed past it. In the run
`cexEnvC5` the trigger write (index 3) gets no acknowledgement and no
read-back — a failed write — yet `snmp_upgrade` proceeds past it through
the status checks to a successful `True` return: the source discards
the result of `execute_set(oid_start_dl, ...)` at line 148. -/
theorem snmpUpgrade_failed_trigger_write_not_fatal :
    cexEnvC5.setAck 3 = none ∧ cexEnvC5.getCheck 3 = none ∧
    (snmp_upgrade cexEnvC5 "fw.p7b").1 = some true := by
  refine ⟨rfl, rfl, ?_⟩
  simp +decide [snmp_upgrade, cexEnvC5, statusLoop, sysDescrLoop, snmpStr]

/-- Claim C5 (amended): failures of the configuration write/read-back
steps are non-fatal, and so is the trigger write itself — the outcome
never depends on any write acknowledgement or read-back value; whether
the trigger took effect is instead checked through the post-trigger
status read, which is fatal when it is not `Integer(1)`. -/
theorem snmpUpgrade_config_failures_nonfatal :
    (∀ (env : SnmpEnv) (f g : Nat → Option SnmpVal) (fw : String),
       (snmp_upgrade { env with setAck := f, getCheck := g } fw).1 =
         (snmp_upgrade env fw).1) ∧
    (∀ (env : SnmpEnv) (fw : String),
       firstStatusInt env.firstStatus ≠ some 1 →
       (snmp_upgrade env fw).1 = none) := by
  constructor
  · intro env f g fw
    exact snmp_congr { env with setAck := f, getCheck := g } env fw rfl rfl rfl
  · intro env fw h
    exact (snmp_firstStatus_bad env fw h).1

/-- Witness for the amended C5: replacing all acknowledgements and
read-backs of the successful run `wEnvC5a` by `none` leaves the outcome
unchanged, and the run `wEnvC5b` (first status read `Integer(2)`)
returns `None`. -/
theorem snmpUpgrade_config_failures_nonfatal_witness :
    (snmp_upgrade { wEnvC5a with setAck := fun _ => none, getCheck := fun _ => none }
        "fw.p7b").1 = (snmp_upgrade wEnvC5a "fw.p7b").1 ∧
    (snmp_upgrade wEnvC5b "fw.p7b").1 = none :=
  ⟨snmpUpgrade_config_failures_nonfatal.1 wEnvC5a (fun _ => none) (fun _ => none) "fw.p7b",
   snmpUpgrade_config_failures_nonfatal.2 wEnvC5b "fw.p7b" (by decide)⟩

/-- Claim C6: `console_upgrade` returns `True` exactly when the login
marker is observed within the 4-attempt retry loop (which presupposes
the connect succeeded and the reboot marker was seen); exhausting all 4
attempts yields `None`; the loop sends at most 4 probes; and each
unsuccessful attempt is followed by a 30-second delay before the next. -/
theorem consoleUpgrade_success_iff_login_prompt (env : ConsoleEnv) (fw : String) :
    ((console_upgrade env fw).1 = some true ↔
       env.connect = true ∧ env.expectReboot = true ∧
         ∃ i, i < 4 ∧ env.loginAttempt i = true) ∧
    (env.connect = true → env.expectReboot = true →
       (∀ i, i < 4 → env.loginAttempt i = false) →
       (console_upgrade env fw).1 = none) ∧
    countSend (loginLoop env 0).2 ≤ 4 ∧
    (∀ c, c < 4 → env.loginAttempt c = false →
       loginLoop env c =
         ((loginLoop env (c + 1)).1,
          CEv.send "\r" :: CEv.expectFail loginMarker :: CEv.sleep 30 ::
            (loginLoop env (c + 1)).2)) := by
  refine ⟨?_, ?_, ?_, ?_⟩
  · rw [console_true_iff, loginLoop_lt_iff]
    simp
  · intro hc hr hall
    rcases console_result_cases env fw with h | h
    · exact h
    · exfalso
      have := (console_true_iff env fw).1 h
      rcases (loginLoop_lt_iff env 0).1 this.2.2 with ⟨i, _, hi4, ha⟩
      rw [hall i hi4] at ha
      exact Bool.false_ne_true ha
  · simpa using loginLoop_countSend env 0
  · exact loginLoop_fail_step env

/-- Witness for C6: in `wEnvC6a` the prompt appears on attempt 1 and the
orchestrator returns `True`, with the failed attempt 0 followed by a
30 s delay; in `wEnvC6b` all four attempts fail and the result is
`None`. -/
theorem consoleUpgrade_success_iff_login_prompt_witness :
    (console_upgrade wEnvC6a "fw.pkgtb").1 = some true ∧
    loginLoop wEnvC6a 0 =
      ((loginLoop wEnvC6a 1).1,
       CEv.send "\r" :: CEv.expectFail loginMarker :: CEv.sleep 30 ::
         (loginLoop wEnvC6a 1).2) ∧
    (console_upgrade wEnvC6b "fw.pkgtb").1 = none :=
  ⟨((consoleUpgrade_success_iff_login_prompt wEnvC6a "fw.pkgtb").1).mpr
     ⟨rfl, rfl, 1, by decide, by decide⟩,
   (consoleUpgrade_success_iff_login_prompt wEnvC6a "fw.pkgtb").2.2.2 0
     (by decide) (by decide),
   (consoleUpgrade_success_iff_login_prompt wEnvC6b "fw.pkgtb").2.1 rfl rfl
     (by intro i hi; rfl)⟩

/-- Claim C7: when opening the console session fails, `console_upgrade`
returns `None` immediately: the trace is empty, in particular no
`execute` (configuration or trigger) command is ever issued. -/
theorem consoleUpgrade_connect_fail_no_commands (env : ConsoleEnv) (fw : String)
    (hc : env.connect = false) :
    console_upgrade env fw = (none, []) ∧
    countExec (console_upgrade env fw).2 = 0 := by
  constructor
  · simp [console_upgrade, hc]
  · simp [console_upgrade, hc, countExec]

/-- Witness for C7: the run `wEnvC7` has a failing connect. -/
theorem consoleUpgrade_connect_fail_no_commands_witness :
    console_upgrade wEnvC7 "fw.pkgtb" = (none, []) ∧
    countExec (console_upgrade wEnvC7 "fw.pkgtb").2 = 0 :=
  consoleUpgrade_connect_fail_no_commands wEnvC7 "fw.pkgtb" rfl

/-- Claim C9: in `console_upgrade`, an `execute` call returning no
response is non-fatal: for every run whose connect succeeds — whatever
the three responses, including all `None` — the trace contains all three
configuration/trigger commands and then reaches the reboot-marker wait
(the `set_timeout(120)` call). -/
theorem consoleUpgrade_command_failures_nonfatal (env : ConsoleEnv) (fw : String)
    (hc : env.connect = true) :
    CEv.execute cmdDlServer (env.execResp 0) ∈ (console_upgrade env fw).2 ∧
    CEv.execute (cmdFwFilename fw) (env.execResp 1) ∈ (console_upgrade env fw).2 ∧
    CEv.execute cmdTrigger (env.execResp 2) ∈ (console_upgrade env fw).2 ∧
    CEv.setTimeout 120 ∈ (console_upgrade env fw).2 := by
  cases hr : env.expectReboot with
  | false => simp [console_upgrade, hc, hr]
  | true =>
      by_cases h4 : 4 ≤ (loginLoop env 0).1 <;>
        simp [console_upgrade, hc, hr, h4]

/-- Witness for C9: in `wEnvC9` all three commands yield no response and
the orchestrator still proceeds to the reboot-marker wait. -/
theorem consoleUpgrade_command_failures_nonfatal_witness :
    CEv.execute cmdDlServer none ∈ (console_upgrade wEnvC9 "fw.pkgtb").2 ∧
    CEv.execute (cmdFwFilename "fw.pkgtb") none ∈ (console_upgrade wEnvC9 "fw.pkgtb").2 ∧
    CEv.execute cmdTrigger none ∈ (console_upgrade wEnvC9 "fw.pkgtb").2 ∧
    CEv.setTimeout 120 ∈ (console_upgrade wEnvC9 "fw.pkgtb").2 :=
  consoleUpgrade_command_failures_nonfatal wEnvC9 "fw.pkgtb" rfl

/-- Claim C8 (counterexample): the claim says the confirmation phase
returns `True` as soon as one sysDescr.0 poll yields a non-empty
response. In the run `cexEnvC8` the monitoring loop ends with status 3
and every sysDescr.0 poll yields the response `OctetString("None")` —
a non-empty response whose string rendering has length 4 — yet
`snmp_upgrade` returns `None`: line 190 of the source compares the
rendering against the literal `"None"` (to recognise `str(None)`) and
so rejects this genuine response, all 20 polls long. -/
theorem snmpUpgrade_none_string_response_not_success :
    cexEnvC8.sysDescr 0 = some (SnmpVal.str "None") ∧
    0 < (snmpStr (cexEnvC8.sysDescr 0)).length ∧
    (statusLoop cexEnvC8 0 1).1 = 3 ∧
    (snmp_upgrade cexEnvC8 "fw.p7b").1 = none := by
  refine ⟨rfl, by decide, ?_, ?_⟩
  · simp +decide [statusLoop, cexEnvC8]
  · simp +decide [snmp_upgrade, cexEnvC8, statusLoop, sysDescrLoop, snmpStr]

/-- Claim C8 (amended): after the monitoring loop ends with status 3,
`snmp_upgrade` polls sysDescr.0 at most 20 times and returns `True` as
soon as one poll yields a response whose string rendering is non-empty
and differs from the literal `"None"` (the rendering of an absent
response); if no poll in the 20-attempt budget passes that test it
returns `None`. -/
theorem snmpUpgrade_confirmation_loop_spec :
    (∀ env : SnmpEnv,
       ((sysDescrLoop env 0).1 = some true ↔
         ∃ i, i < 20 ∧ goodSDval (env.sysDescr i))) ∧
    (∀ env : SnmpEnv,
       (∀ i, i < 20 → ¬goodSDval (env.sysDescr i)) →
       (sysDescrLoop env 0).1 = none) ∧
    (∀ env : SnmpEnv, countGet oid_sys_descr (sysDescrLoop env 0).2 ≤ 20) ∧
    (∀ (env : SnmpEnv) (c : Nat), c < 20 → goodSDval (env.sysDescr c) →
       sysDescrLoop env c =
         (some true, [SnmpEv.get oid_sys_descr (env.sysDescr c)])) ∧
    (∀ (env : SnmpEnv) (fw : String),
       env.firstStatus = some (SnmpVal.int 1) →
       (statusLoop env 0 1).1 = 3 →
       (snmp_upgrade env fw).1 = (sysDescrLoop env 0).1) := by
  refine ⟨?_, ?_, ?_, ?_, ?_⟩
  · intro env
    rw [sysDescrLoop_true_iff]
    simp
  · intro env hall
    rcases sysDescrLoop_cases env 0 with h | h
    · exfalso
      rcases (sysDescrLoop_true_iff env 0).1 h with ⟨i, _, hi20, hg⟩
      exact hall i hi20 hg
    · exact h
  · intro env
    simpa using sysDescrLoop_countGet env 0
  · exact sysDescrLoop_good_exit
  · exact snmp_loop_ok

/-- Witness for the amended C8: in `wEnvC8` the first sysDescr.0 poll
answers with a real description and the orchestrator returns `True`;
and in `cexEnvC8` no poll passes the test, so the loop yields `None`. -/
theorem snmpUpgrade_confirmation_loop_spec_witness :
    sysDescrLoop wEnvC8 0 =
      (some true, [SnmpEv.get oid_sys_descr (wEnvC8.sysDescr 0)]) ∧
    (snmp_upgrade wEnvC8 "fw.p7b").1 = (sysDescrLoop wEnvC8 0).1 ∧
    (sysDescrLoop cexEnvC8 0).1 = none :=
  ⟨snmpUpgrade_confirmation_loop_spec.2.2.2.1 wEnvC8 0 (by decide) (by decide),
   snmpUpgrade_confirmation_loop_spec.2.2.2.2 wEnvC8 "fw.p7b" rfl
     (by simp +decide [statusLoop, wEnvC8]),
   snmpUpgrade_confirmation_loop_spec.2.1 cexEnvC8
     (by intro i hi; simp [goodSDval, cexEnvC8, snmpStr])⟩

/-- Claim C10: both entry points return `True` or `None` and never
`False`, for every behaviour of the transport collaborators: every
non-success outcome is reported as the indeterminate value `None`. -/
theorem upgrade_never_returns_false :
    (∀ (env : ConsoleEnv) (fw : String),
       (console_upgrade env fw).1 = none ∨ (console_upgrade env fw).1 = some true) ∧
    (∀ (env : SnmpEnv) (fw : String),
       (snmp_upgrade env fw).1 = none ∨ (snmp_upgrade env fw).1 = some true) :=
  ⟨console_result_cases, snmp_result_cases⟩

end FwUpgrade
